import Mathlib

/-!
Shallow embedding of the agribook backend's reminder notification engine and
the reminder/transaction service layer, translated from
`src/services/notification.service.ts`, the reminder service and the
transaction/alert services.  Persistence is modelled as an explicit `Db`
state; JavaScript `Date` values are modelled as calendar timestamps
(day index plus minute of day, ordered lexicographically); decimal amounts
are modelled as rationals; thrown service errors are modelled with `Except`.
-/

namespace Agribook

/-- A JS `Date`: calendar day index and minute-of-day, compared
lexicographically (this matches the total order on `Date` values, and
`toDateString()` equality is equality of the day index). -/
structure Timestamp where
  day : Int
  minute : Nat
deriving DecidableEq

/-- Comparison `a <= b` on `Date` values. -/
def Timestamp.ble (a b : Timestamp) : Bool :=
  decide (a.day < b.day) || (a.day == b.day && decide (a.minute ≤ b.minute))

/-- Comparison `a < b` on `Date` values. -/
def Timestamp.blt (a b : Timestamp) : Bool :=
  decide (a.day < b.day) || (a.day == b.day && decide (a.minute < b.minute))

/-- Embeds `new Date(now.getFullYear(), now.getMonth(), now.getDate())`: midnight of
the same calendar day. -/
def Timestamp.midnight (t : Timestamp) : Timestamp :=
  { day := t.day, minute := 0 }

/-- Embeds `a.toDateString() === b.toDateString()`: same calendar day. -/
def Timestamp.sameCalendarDay (a b : Timestamp) : Bool :=
  a.day == b.day

/-- Decimal amounts (`DECIMAL(10,2)` columns and JS numbers). -/
abbrev Money := Rat

/-- JS template interpolation of a (two-decimal, non-negative) amount:
`500 ↦ "500"`, `99.9 ↦ "99.9"`, `99.99 ↦ "99.99"`. -/
def showAmount (q : Money) : String :=
  if q.den = 1 then toString q.num
  else
    let cents : Int := (q * 100).floor
    let ip : Int := cents / 100
    let f : Int := cents % 100
    if f % 10 == 0 then toString ip ++ "." ++ toString (f / 10)
    else if f < 10 then toString ip ++ ".0" ++ toString f
    else toString ip ++ "." ++ toString f

/-- The `AlertType` enum of the Prisma schema. -/
inductive AlertType where
  | INFO
  | WARNING
  | ERROR
  | SUCCESS
deriving DecidableEq

/-- An alert record as written by `alertService.createAlert` (id and
`isRead = false` omitted: they are never read by this core). -/
structure Alert where
  userId : String
  type : AlertType
  message : String
deriving DecidableEq

/-- A category record (`categories` table). -/
structure Category where
  id : String
  name : String
  type : String
deriving DecidableEq

/-- A reminder record (`reminders` table).  `reminderType` is kept as the
string the service layer stores (one of `GENERAL`, `TRANSACTION`,
`THRESHOLD`). -/
structure Reminder where
  id : String
  userId : String
  title : String
  description : Option String
  dueDate : Timestamp
  completed : Bool
  reminderType : String
  categoryId : Option String
  thresholdAmount : Option Money
  transactionType : Option String
  transactionAmount : Option Money
deriving DecidableEq

/-- A transaction record (`transactions` table). -/
structure Transaction where
  id : String
  userId : String
  type : String
  amount : Money
  categoryId : String
  description : Option String
  receiptUrl : Option String
deriving DecidableEq

/-- The persistence store. -/
structure Db where
  reminders : List Reminder
  categories : List Category
  transactions : List Transaction
  alerts : List Alert
deriving DecidableEq

/-- The Prisma `include: { category: true }` join on a reminder's optional
`categoryId`. -/
def findCategory (db : Db) (cid : Option String) : Option Category :=
  match cid with
  | none => none
  | some c => db.categories.find? (fun cat => cat.id == c)

/-- Thrown service errors (`utils/errors.ts`): `NotFoundError` (404),
`BadRequestError` (400), `DatabaseError` (500). -/
inductive ServiceError where
  | notFound (msg : String)
  | badRequest (msg : String)
  | database (msg : String)
deriving DecidableEq

/-! ### NotificationService (`src/services/notification.service.ts`) -/

/-- The `where` clause of the `findMany` in `checkThresholdReminders`:
`userId`, `reminderType: THRESHOLD`, `completed: false`,
`categoryId: categoryId`, `thresholdAmount: { not: null }`. -/
def thresholdQueryWhere (userId categoryId : String) (r : Reminder) : Bool :=
  r.userId == userId && r.reminderType == "THRESHOLD" && r.completed == false &&
    r.categoryId == some categoryId && r.thresholdAmount.isSome

/-- Embeds `reminder.category?.name || "this category"` (a missing join or an empty
name both fall back). -/
def resolvedCategoryName (db : Db) (r : Reminder) : String :=
  match findCategory db r.categoryId with
  | some c => if c.name == "" then "this category" else c.name
  | none => "this category"

/-- The `WARNING` alert built inside the `checkThresholdReminders` loop. -/
def mkThresholdAlert (db : Db) (userId : String) (amount : Money)
    (r : Reminder) (t : Money) : Alert :=
  { userId := userId
    type := AlertType.WARNING
    message := "Threshold reminder: " ++ r.title ++ ". Expense of $" ++
      showAmount amount ++ " in " ++ resolvedCategoryName db r ++
      " has exceeded the threshold of $" ++ showAmount t }

/-- The alerts written by one call of `checkThresholdReminders`: each fetched
reminder fires when `reminder.thresholdAmount && amount >= Number(...)`
(a non-null Prisma `Decimal` is always truthy, so this is: the threshold is
present and `amount` reaches it). -/
def thresholdNewAlerts (db : Db) (userId categoryId : String)
    (amount : Money) : List Alert :=
  (db.reminders.filter (thresholdQueryWhere userId categoryId)).filterMap
    (fun r =>
      match r.thresholdAmount with
      | some t => if t ≤ amount then some (mkThresholdAlert db userId amount r t) else none
      | none => none)

/-- Embeds `NotificationService.checkThresholdReminders`: reads reminders, appends
the triggered alerts, touches nothing else (the "mark reminder as completed"
update is commented out in the source); its `catch` swallows every error. -/
def checkThresholdReminders (db : Db) (userId categoryId : String)
    (amount : Money) : Db :=
  { db with alerts := db.alerts ++ thresholdNewAlerts db userId categoryId amount }

/-- The `where` clause of the `findMany` in `checkTransactionReminders`:
`reminderType: TRANSACTION`, `completed: false`, `dueDate: { lte: now }`
(an exact-timestamp comparison). -/
def txnDueQueryWhere (now : Timestamp) (r : Reminder) : Bool :=
  r.reminderType == "TRANSACTION" && r.completed == false &&
    Timestamp.ble r.dueDate now

/-- The in-loop due check shared by both sweeps:
`isToday || dueDate < today` where `today` is midnight of `now`. -/
def dueOnLoop (now : Timestamp) (d : Timestamp) : Bool :=
  Timestamp.sameCalendarDay d now || Timestamp.blt d (Timestamp.midnight now)

/-- Embeds `reminder.transactionType === "INCOME" ? "Income" : "Expense"`. -/
def txnTypeLabel (tt : Option String) : String :=
  if tt == some "INCOME" then "Income" else "Expense"

/-- Embeds the amount clause `reminder.transactionAmount ? ... : empty` (non-null `Decimal`
is truthy). -/
def txnAmountClause (ta : Option Money) : String :=
  match ta with
  | some a => " of $" ++ showAmount a
  | none => ""

/-- Embeds the category clause `reminder.category?.name ? ... : empty`. -/
def txnCategoryClause (db : Db) (r : Reminder) : String :=
  match findCategory db r.categoryId with
  | some c => if c.name == "" then "" else " in " ++ c.name
  | none => ""

/-- The loop body of `checkTransactionReminders` for one fetched reminder:
the `INFO` alert it writes, or `none` when the in-loop due check fails. -/
def mkTransactionAlert (db : Db) (now : Timestamp) (r : Reminder) :
    Option Alert :=
  if dueOnLoop now r.dueDate then
    some { userId := r.userId
           type := AlertType.INFO
           message := "Transaction reminder: " ++ r.title ++ ". " ++
             txnTypeLabel r.transactionType ++ " transaction" ++
             txnAmountClause r.transactionAmount ++ txnCategoryClause db r ++
             " is due today." }
  else none

/-- The sweep loop over the fetched reminders, with the alert sink modelled
as a predicate (`true` = the `prisma.alert.create` succeeds).  A sink failure
throws, the surrounding `try`/`catch` catches it at sweep level and returns:
alerts already written persist, the rest of the loop never runs. -/
def sweepWrites (sink : Alert → Bool) (mk : Reminder → Option Alert) :
    List Reminder → List Alert
  | [] => []
  | r :: rs =>
    match mk r with
    | none => sweepWrites sink mk rs
    | some a => if sink a then a :: sweepWrites sink mk rs else []

/-- Embeds `NotificationService.checkTransactionReminders`, parametrised by the
alert sink. -/
def checkTransactionRemindersWith (sink : Alert → Bool) (db : Db)
    (now : Timestamp) : Db :=
  { db with alerts := db.alerts ++ sweepWrites sink (mkTransactionAlert db now) (db.reminders.filter (txnDueQueryWhere now)) }

/-- An always-succeeding alert sink. -/
def okSink : Alert → Bool := fun _ => true

/-- Runs `checkTransactionReminders` with a healthy alert sink. -/
def checkTransactionReminders (db : Db) (now : Timestamp) : Db :=
  checkTransactionRemindersWith okSink db now

/-- The `where` clause of the `findMany` in `checkGeneralReminders`. -/
def genDueQueryWhere (now : Timestamp) (r : Reminder) : Bool :=
  r.reminderType == "GENERAL" && r.completed == false &&
    Timestamp.ble r.dueDate now

/-- The loop body of `checkGeneralReminders` for one fetched reminder:
message `"Reminder: {title}"` with a ` - {description}` clause when the
description is truthy. -/
def mkGeneralAlert (now : Timestamp) (r : Reminder) : Option Alert :=
  if dueOnLoop now r.dueDate then
    some { userId := r.userId
           type := AlertType.INFO
           message := "Reminder: " ++ r.title ++
             (match r.description with
              | some d => if d == "" then "" else " - " ++ d
              | none => "") }
  else none

/-- Embeds `NotificationService.checkGeneralReminders`, parametrised by the alert
sink. -/
def checkGeneralRemindersWith (sink : Alert → Bool) (db : Db)
    (now : Timestamp) : Db :=
  { db with alerts := db.alerts ++ sweepWrites sink (mkGeneralAlert now) (db.reminders.filter (genDueQueryWhere now)) }

/-- Runs `checkGeneralReminders` with a healthy alert sink. -/
def checkGeneralReminders (db : Db) (now : Timestamp) : Db :=
  checkGeneralRemindersWith okSink db now

/-! ### ReminderService (the reminder service file of the repository) -/

/-- Embeds `CreateReminderDto` (from the types module); `reminderType` is kept as the raw
incoming string because the service casts it to `string` to admit legacy
values such as `BUDGET_ALERT`. -/
structure CreateReminderDto where
  title : String
  description : Option String := none
  dueDate : Timestamp
  reminderType : Option String := none
  categoryId : Option String := none
  thresholdAmount : Option Money := none
  transactionType : Option String := none
  transactionAmount : Option Money := none
deriving DecidableEq

/-- Embeds `UpdateReminderDto` (from the types module); `none` models an `undefined`
(absent) field. -/
structure UpdateReminderDto where
  title : Option String := none
  description : Option String := none
  dueDate : Option Timestamp := none
  completed : Option Bool := none
  reminderType : Option String := none
  categoryId : Option String := none
  thresholdAmount : Option Money := none
  transactionType : Option String := none
  transactionAmount : Option Money := none
deriving DecidableEq

/-- Embeds `const validReminderTypes = [GENERAL, TRANSACTION, THRESHOLD]`. -/
def validReminderTypes : List String :=
  ["GENERAL", "TRANSACTION", "THRESHOLD"]

/-- Deterministic fresh id for a `prisma.reminder.create`. -/
def freshReminderId (db : Db) : String :=
  "reminder-" ++ toString db.reminders.length

/-- The `try` body of `ReminderService.createReminder`:
`(data.reminderType as string) || "GENERAL"` (the empty string is falsy and
also falls back to `GENERAL`), then the `BUDGET_ALERT ↦ THRESHOLD` legacy
mapping, then membership in `validReminderTypes`, throwing
`BadRequestError` on failure, then the store insert (`completed` takes its
schema default `false`). -/
def createReminderTry (db : Db) (userId : String) (data : CreateReminderDto) :
    Except ServiceError (Db × Reminder) :=
  let rt0 : String :=
    match data.reminderType with
    | none => "GENERAL"
    | some s => if s == "" then "GENERAL" else s
  let rt1 : String := if rt0 == "BUDGET_ALERT" then "THRESHOLD" else rt0
  if validReminderTypes.contains rt1 then
    let r : Reminder :=
      { id := freshReminderId db
        userId := userId
        title := data.title
        description := data.description
        dueDate := data.dueDate
        completed := false
        reminderType := rt1
        categoryId := data.categoryId
        thresholdAmount := data.thresholdAmount
        transactionType := data.transactionType
        transactionAmount := data.transactionAmount }
    Except.ok ({ db with reminders := db.reminders ++ [r] }, r)
  else
    Except.error (ServiceError.badRequest
      ("Invalid reminderType: " ++ rt1 ++
        ". Valid values are: GENERAL, TRANSACTION, THRESHOLD"))

/-- Embeds `ReminderService.createReminder`: its `catch` block has no `instanceof`
rethrow, so every thrown error — the validation `BadRequestError`
included — is replaced by `DatabaseError("Failed to create reminder")`. -/
def createReminder (db : Db) (userId : String) (data : CreateReminderDto) :
    Except ServiceError (Db × Reminder) :=
  match createReminderTry db userId data with
  | Except.ok x => Except.ok x
  | Except.error _ => Except.error (ServiceError.database "Failed to create reminder")

/-- Embeds `prisma.reminder.findFirst({ where: { id, userId } })`. -/
def findReminder (db : Db) (rid uid : String) : Option Reminder :=
  db.reminders.find? (fun r => r.id == rid && r.userId == uid)

/-- Embeds `prisma.reminder.update({ where: { id } })`: replace the record with the
matching id. -/
def replaceReminder (db : Db) (rid : String) (r' : Reminder) : Db :=
  { db with reminders := db.reminders.map (fun r => if r.id == rid then r' else r) }

/-- The `reminderType` handling of `ReminderService.updateReminder` when the
field is present: legacy mapping then validation, throwing
`BadRequestError` on failure. -/
def updateReminderTypeField (raw : String) : Except ServiceError String :=
  let m : String := if raw == "BUDGET_ALERT" then "THRESHOLD" else raw
  if validReminderTypes.contains m then Except.ok m
  else
    Except.error (ServiceError.badRequest
      ("Invalid reminderType: " ++ m ++
        ". Valid values are: GENERAL, TRANSACTION, THRESHOLD"))

/-- The record produced by applying the defined fields of an `UpdateReminderDto`
(with `rt?` the validated `reminderType`, when present) to a reminder. -/
def applyReminderUpdate (r : Reminder) (data : UpdateReminderDto)
    (rt? : Option String) : Reminder :=
  { r with
    title := data.title.getD r.title
    description := match data.description with
      | some d => some d
      | none => r.description
    dueDate := data.dueDate.getD r.dueDate
    completed := data.completed.getD r.completed
    reminderType := rt?.getD r.reminderType
    categoryId := match data.categoryId with
      | some c => some c
      | none => r.categoryId
    thresholdAmount := match data.thresholdAmount with
      | some t => some t
      | none => r.thresholdAmount
    transactionType := match data.transactionType with
      | some t => some t
      | none => r.transactionType
    transactionAmount := match data.transactionAmount with
      | some t => some t
      | none => r.transactionAmount }

/-- The `try` body of `ReminderService.updateReminder`: find the reminder
(`NotFoundError` when absent), validate a present `reminderType`, then one
store update applying all defined fields. -/
def updateReminderTry (db : Db) (rid uid : String) (data : UpdateReminderDto) :
    Except ServiceError (Db × Reminder) :=
  match findReminder db rid uid with
  | none => Except.error (ServiceError.notFound "Reminder not found")
  | some r =>
    match data.reminderType with
    | none =>
      let r' := applyReminderUpdate r data none
      Except.ok (replaceReminder db rid r', r')
    | some raw =>
      match updateReminderTypeField raw with
      | Except.error e => Except.error e
      | Except.ok rt =>
        let r' := applyReminderUpdate r data (some rt)
        Except.ok (replaceReminder db rid r', r')

/-- Embeds `ReminderService.updateReminder`: the `catch` rethrows only
`NotFoundError`; every other thrown error — the validation
`BadRequestError` included — becomes `DatabaseError("Failed to update
reminder")`. -/
def updateReminder (db : Db) (rid uid : String) (data : UpdateReminderDto) :
    Except ServiceError (Db × Reminder) :=
  match updateReminderTry db rid uid data with
  | Except.ok x => Except.ok x
  | Except.error (ServiceError.notFound m) => Except.error (ServiceError.notFound m)
  | Except.error _ => Except.error (ServiceError.database "Failed to update reminder")

/-- Embeds `ReminderService.toggleReminder`: find the reminder (`NotFoundError`
when absent) and store `completed: !reminder.completed`. -/
def toggleReminder (db : Db) (rid uid : String) :
    Except ServiceError (Db × Reminder) :=
  match findReminder db rid uid with
  | none => Except.error (ServiceError.notFound "Reminder not found")
  | some r =>
    let r' := { r with completed := !r.completed }
    Except.ok (replaceReminder db rid r', r')

/-! ### TransactionService (`createTransaction`) -/

/-- Embeds `CreateTransactionDto` (from the types module). -/
structure CreateTransactionDto where
  type : String
  amount : Money
  categoryId : String
  description : Option String := none
  receiptUrl : Option String := none
deriving DecidableEq

/-- Deterministic fresh id for a `prisma.transaction.create`. -/
def freshTransactionId (db : Db) : String :=
  "transaction-" ++ toString db.transactions.length

/-- Embeds `TransactionService.createTransaction`: verify the category exists
(`NotFoundError`) and that its type matches (`BadRequestError`), then insert
the transaction and return it.  The function performs no further work after
the insert: in the whole repository nothing ever invokes
`NotificationService.checkThresholdReminders`. -/
def createTransaction (db : Db) (userId : String) (data : CreateTransactionDto) :
    Except ServiceError (Db × Transaction) :=
  match db.categories.find? (fun c => c.id == data.categoryId) with
  | none => Except.error (ServiceError.notFound "Category not found")
  | some c =>
    if c.type != data.type then
      Except.error (ServiceError.badRequest "Category type does not match transaction type")
    else
      let t : Transaction :=
        { id := freshTransactionId db
          userId := userId
          type := data.type
          amount := data.amount
          categoryId := data.categoryId
          description := data.description
          receiptUrl := data.receiptUrl }
      Except.ok ({ db with transactions := db.transactions ++ [t] }, t)

/-! ### Concrete records used by the claim theorems -/

/-- The `util-cat` category of the spec's threshold scenario. -/
def utilCategory : Category :=
  { id := "util-cat", name := "Utilities", type := "EXPENSE" }

/-- The `Pay utility` threshold reminder of the spec's scenario. -/
def payUtilityReminder : Reminder :=
  { id := "rem-1", userId := "u1", title := "Pay utility", description := none,
    dueDate := { day := 10, minute := 0 }, completed := false,
    reminderType := "THRESHOLD", categoryId := some "util-cat",
    thresholdAmount := some 500, transactionType := none,
    transactionAmount := none }

/-- Store holding the scenario reminder and category and nothing else. -/
def c1Db : Db :=
  { reminders := [payUtilityReminder], categories := [utilCategory],
    transactions := [], alerts := [] }

/-- The scenario's expense transaction payload. -/
def c1Dto : CreateTransactionDto :=
  { type := "EXPENSE", amount := 500, categoryId := "util-cat" }

/-- The transaction record `createTransaction` persists for the scenario. -/
def c1Txn : Transaction :=
  { id := "transaction-0", userId := "u1", type := "EXPENSE", amount := 500,
    categoryId := "util-cat", description := none, receiptUrl := none }

/-- The store after the scenario's transaction write. -/
def c1DbAfter : Db :=
  { reminders := [payUtilityReminder], categories := [utilCategory],
    transactions := [c1Txn], alerts := [] }

/-- The `WARNING` alert `checkThresholdReminders` would write for the
scenario, were it ever invoked. -/
def c1HookAlert : Alert :=
  { userId := "u1", type := AlertType.WARNING,
    message := "Threshold reminder: Pay utility. Expense of $500 in Utilities has exceeded the threshold of $500" }

/-- A baseline `GENERAL` reminder (due yesterday 23:59 relative to
`c4Now`). -/
def c4RA : Reminder :=
  { id := "gA", userId := "u1", title := "A", description := none,
    dueDate := { day := 99, minute := 1439 }, completed := false,
    reminderType := "GENERAL", categoryId := none, thresholdAmount := none,
    transactionType := none, transactionAmount := none }

/-- A `GENERAL` reminder due today 08:00. -/
def c4RB : Reminder :=
  { c4RA with id := "gB", title := "B", dueDate := { day := 100, minute := 480 } }

/-- A `GENERAL` reminder due today 23:00 — later in the day than `c4Now`. -/
def c4RC : Reminder :=
  { c4RA with id := "gC", title := "C", dueDate := { day := 100, minute := 1380 } }

/-- A `GENERAL` reminder due tomorrow 00:01. -/
def c4RD : Reminder :=
  { c4RA with id := "gD", title := "D", dueDate := { day := 101, minute := 1 } }

/-- Store for the due-date boundary runs. -/
def c4Db : Db :=
  { reminders := [c4RA, c4RB, c4RC, c4RD], categories := [],
    transactions := [], alerts := [] }

/-- The sweep's evaluation time: today 10:00. -/
def c4Now : Timestamp := { day := 100, minute := 600 }

/-- The alert the sweep writes for `c4RA`. -/
def c4AlertA : Alert :=
  { userId := "u1", type := AlertType.INFO, message := "Reminder: A" }

/-- The alert the sweep writes for `c4RB`. -/
def c4AlertB : Alert :=
  { userId := "u1", type := AlertType.INFO, message := "Reminder: B" }

/-- A `TRANSACTION` reminder due today 23:00. -/
def c4TxnReminder : Reminder :=
  { c4RC with id := "tC", reminderType := "TRANSACTION" }

/-- Store holding only the later-today `TRANSACTION` reminder. -/
def c4TxnDb : Db :=
  { reminders := [c4TxnReminder], categories := [], transactions := [],
    alerts := [] }

/-- The `c1` category of the two-reminder scenario. -/
def c2Category : Category :=
  { id := "c1", name := "Groceries", type := "EXPENSE" }

/-- Threshold reminder watching `c1` at threshold 100. -/
def c2R100 : Reminder :=
  { payUtilityReminder with
    id := "r100"
    title := "R100"
    categoryId := some "c1"
    thresholdAmount := some 100 }

/-- Threshold reminder watching `c1` at threshold 200. -/
def c2R200 : Reminder :=
  { c2R100 with id := "r200", title := "R200", thresholdAmount := some 200 }

/-- Store with the two `c1` threshold reminders. -/
def c2Db : Db :=
  { reminders := [c2R100, c2R200], categories := [c2Category],
    transactions := [], alerts := [] }

/-- The single alert the 150 expense produces in the two-reminder store. -/
def c2ScenarioAlert : Alert :=
  { userId := "u1", type := AlertType.WARNING,
    message := "Threshold reminder: R100. Expense of $150 in Groceries has exceeded the threshold of $100" }

/-- Store holding only the 100-threshold reminder. -/
def c2SingleDb : Db :=
  { reminders := [c2R100], categories := [c2Category], transactions := [],
    alerts := [] }

/-- A threshold reminder whose `thresholdAmount` is null. -/
def c7NullReminder : Reminder :=
  { payUtilityReminder with thresholdAmount := none }

/-- Store holding only the null-threshold reminder. -/
def c7Db : Db :=
  { reminders := [c7NullReminder], categories := [], transactions := [],
    alerts := [] }

/-- A creation payload carrying the legacy `BUDGET_ALERT` tag. -/
def c8CreateDto : CreateReminderDto :=
  { title := "X", dueDate := { day := 0, minute := 0 },
    reminderType := some "BUDGET_ALERT", categoryId := some "c1",
    thresholdAmount := some 10 }

/-- An update payload carrying the legacy `BUDGET_ALERT` tag. -/
def c8UpdateDto : UpdateReminderDto :=
  { reminderType := some "BUDGET_ALERT" }

/-- The `rem-1` reminder after one completion toggle. -/
def payUtilityCompleted : Reminder :=
  { payUtilityReminder with completed := true }

/-- The store after one completion toggle of `rem-1`. -/
def c6Db1 : Db :=
  { reminders := [payUtilityCompleted], categories := [utilCategory],
    transactions := [], alerts := [] }

/-- The update payload `{ completed: true }` used to mark a reminder
completed through `updateReminder`. -/
def markCompletedDto : UpdateReminderDto :=
  { completed := some true }

/-- A creation payload with an empty-string `reminderType`. -/
def c3EmptyDto : CreateReminderDto :=
  { title := "x", dueDate := { day := 0, minute := 0 }, reminderType := some "" }

/-- A creation payload with the unrecognized `reminderType` `BOGUS`. -/
def c3BogusDto : CreateReminderDto :=
  { title := "x", dueDate := { day := 0, minute := 0 }, reminderType := some "BOGUS" }

/-- An update payload with the unrecognized `reminderType` `BOGUS`. -/
def c3BogusUpd : UpdateReminderDto :=
  { reminderType := some "BOGUS" }

/-- A due `TRANSACTION` reminder owned by `u1`. -/
def c5T1 : Reminder :=
  { c4RA with
    id := "t1"
    title := "T1"
    reminderType := "TRANSACTION"
    dueDate := { day := 99, minute := 0 } }

/-- A due `TRANSACTION` reminder owned by `u2`. -/
def c5T2 : Reminder :=
  { c5T1 with id := "t2", title := "T2", userId := "u2" }

/-- Store with the two due `TRANSACTION` reminders. -/
def c5Db : Db :=
  { reminders := [c5T1, c5T2], categories := [], transactions := [],
    alerts := [] }

/-- An alert sink that fails exactly on alerts of user `u1`. -/
def c5FailSink : Alert → Bool := fun a => a.userId != "u1"

/-- The alert the sweep writes for `c5T1`. -/
def c5A1 : Alert :=
  { userId := "u1", type := AlertType.INFO,
    message := "Transaction reminder: T1. Expense transaction is due today." }

/-- The alert the sweep writes for `c5T2`. -/
def c5A2 : Alert :=
  { userId := "u2", type := AlertType.INFO,
    message := "Transaction reminder: T2. Expense transaction is due today." }

/-- A due `TRANSACTION` reminder with null `transactionType`,
`transactionAmount` and `categoryId`. -/
def c10Reminder : Reminder :=
  { c4RA with id := "t0", title := "T0", reminderType := "TRANSACTION" }

/-! ### Helper lemmas -/

/-- With a healthy sink, the sweep loop writes one alert per triggering
reminder. -/
theorem sweepWrites_okSink (mk : Reminder → Option Alert) :
    ∀ l : List Reminder, sweepWrites okSink mk l = l.filterMap mk := by
  intro l
  induction l with
  | nil => rfl
  | cons r rs ih =>
    cases hmk : mk r with
    | none => simp [sweepWrites, hmk, List.filterMap_cons, ih]
    | some a => simp [sweepWrites, okSink, hmk, List.filterMap_cons, ih]

/-- If the sink fails on the alert of reminder `r` and succeeds on every alert of
the reminders before it, the sweep loop writes exactly the alerts of the
prefix: the reminders after `r` are never evaluated. -/
theorem sweepWrites_abort (sink : Alert → Bool) (mk : Reminder → Option Alert)
    (r : Reminder) (a : Alert) (ha : mk r = some a) (hfail : sink a = false) :
    ∀ (xs ys : List Reminder),
      (∀ x ∈ xs, ∀ b, mk x = some b → sink b = true) →
      sweepWrites sink mk (xs ++ r :: ys) = xs.filterMap mk := by
  intro xs
  induction xs with
  | nil =>
    intro ys _
    simp [sweepWrites, ha, hfail]
  | cons x t ih =>
    intro ys hok
    have hok' : ∀ z ∈ t, ∀ b, mk z = some b → sink b = true := by
      intro z hz b hb
      exact hok z (List.mem_cons_of_mem x hz) b hb
    cases hmk : mk x with
    | none => simp [sweepWrites, hmk, List.filterMap_cons, ih ys hok']
    | some b =>
      have hsb : sink b = true := hok x (List.mem_cons_self x t) b hmk
      simp [sweepWrites, hmk, hsb, List.filterMap_cons, ih ys hok']

/-- A found reminder carries the searched id and owner. -/
theorem findReminder_id_eq (db : Db) (rid uid : String) (r : Reminder)
    (h : findReminder db rid uid = some r) : r.id = rid ∧ r.userId = uid := by
  unfold findReminder at h
  have hp := List.find?_some h
  simpa [Bool.and_eq_true, beq_iff_eq] using hp

/-- Replacing the record with the searched id by a record that carries the
searched id and owner makes the search return the replacement. -/
theorem find?_replace_aux (rid uid : String) (r' : Reminder)
    (h1 : r'.id = rid) (h2 : r'.userId = uid) :
    ∀ (l : List Reminder) (r : Reminder),
      l.find? (fun x => x.id == rid && x.userId == uid) = some r →
      (l.map (fun x => if x.id == rid then r' else x)).find?
        (fun x => x.id == rid && x.userId == uid) = some r' := by
  intro l
  induction l with
  | nil =>
    intro r h
    simp at h
  | cons a t ih =>
    intro r h
    have hpred : (r'.id == rid && r'.userId == uid) = true := by
      simp [h1, h2]
    cases ha : (a.id == rid) with
    | true =>
      simp only [List.map_cons, ha, if_true]
      simp [List.find?_cons, hpred]
    | false =>
      have hpa : (a.id == rid && a.userId == uid) = false := by
        simp [ha]
      simp only [List.find?_cons, hpa] at h
      have hhead : (if (a.id == rid) = true then r' else a) = a := by
        simp [ha]
      simp only [List.map_cons, hhead, List.find?_cons, hpa]
      exact ih r h

/-- Behaviour of `findReminder` after a `replaceReminder` of the found record. -/
theorem findReminder_after_replace (db : Db) (rid uid : String)
    (r r' : Reminder) (h : findReminder db rid uid = some r)
    (h1 : r'.id = rid) (h2 : r'.userId = uid) :
    findReminder (replaceReminder db rid r') rid uid = some r' := by
  unfold findReminder at h ⊢
  unfold replaceReminder
  exact find?_replace_aux rid uid r' h1 h2 db.reminders r h

/-! ### Claim theorems -/

/-- C1: the spec's transaction-write hook requires
`checkThresholdReminders(userId, categoryId, amount)` to run after an
`EXPENSE` transaction is persisted, and the scenario expects exactly one
`WARNING` alert.  The code persists the scenario transaction without any
threshold evaluation — nothing in the repository ever calls
`checkThresholdReminders` — so the store ends with zero alerts, while the
hook, had it been invoked with the transaction's data, would have produced
exactly the one expected `WARNING` alert (its message contains `500` and
the resolved name `Utilities` of `util-cat`). -/
theorem thm_c1_transaction_write_never_invokes_threshold_check :
    createTransaction c1Db "u1" c1Dto = Except.ok (c1DbAfter, c1Txn) ∧
    c1DbAfter.alerts = [] ∧
    thresholdNewAlerts c1DbAfter "u1" "util-cat" 500 = [c1HookAlert] := by
  refine ⟨rfl, rfl, ?_⟩
  decide

/-- C4: the claim states that a due-date sweep triggers exactly for
reminders due on or before the current calendar day, so that a reminder due
later today still triggers.  In the code the store query filters
`dueDate <= now` by exact timestamp, so the reminder due today 23:00 is
never fetched and gets no alert in the 10:00 sweep — even though it is due
on the current calendar day and would pass the (dead) in-loop calendar
check; past-due and earlier-today reminders do alert, and the tomorrow
reminder does not.  The same cutoff applies to the `TRANSACTION` sweep. -/
theorem thm_c4_due_sweep_misses_later_today :
    (checkGeneralReminders c4Db c4Now).alerts = [c4AlertA, c4AlertB] ∧
    Timestamp.sameCalendarDay c4RC.dueDate c4Now = true ∧
    dueOnLoop c4Now c4RC.dueDate = true ∧
    genDueQueryWhere c4Now c4RC = false ∧
    (checkTransactionReminders c4TxnDb c4Now).alerts = [] ∧
    Timestamp.sameCalendarDay c4TxnReminder.dueDate c4Now = true ∧
    txnDueQueryWhere c4Now c4TxnReminder = false := by
  decide

/-- C2: for an active threshold reminder on the watched category with
threshold `T`, an observed expense of `A` emits exactly one `WARNING` alert
to the owner iff `A ≥ T`: the boundary is inclusive (`A = T` fires,
`A = T - 0.01` does not), the alert carries the templated message with the
category name falling back to `"this category"` when unresolved, and in the
two-reminder scenario (thresholds 100 and 200, expense 150) exactly the
100-threshold alert is produced. -/
theorem thm_c2_threshold_inclusive_boundary :
    (∀ (cats : List Category) (txns : List Transaction) (als : List Alert)
       (r : Reminder) (uid cid : String) (A T : Money),
       r.userId = uid → r.reminderType = "THRESHOLD" → r.completed = false →
       r.categoryId = some cid → r.thresholdAmount = some T →
       (T ≤ A → thresholdNewAlerts ⟨[r], cats, txns, als⟩ uid cid A =
          [mkThresholdAlert ⟨[r], cats, txns, als⟩ uid A r T]) ∧
       (¬ T ≤ A → thresholdNewAlerts ⟨[r], cats, txns, als⟩ uid cid A = []) ∧
       thresholdNewAlerts ⟨[r], cats, txns, als⟩ uid cid T =
          [mkThresholdAlert ⟨[r], cats, txns, als⟩ uid T r T] ∧
       thresholdNewAlerts ⟨[r], cats, txns, als⟩ uid cid (T - 1/100) = [] ∧
       (mkThresholdAlert ⟨[r], cats, txns, als⟩ uid A r T).type = AlertType.WARNING ∧
       (mkThresholdAlert ⟨[r], cats, txns, als⟩ uid A r T).userId = uid ∧
       (mkThresholdAlert ⟨[r], cats, txns, als⟩ uid A r T).message =
         "Threshold reminder: " ++ r.title ++ ". Expense of $" ++ showAmount A ++
           " in " ++ resolvedCategoryName ⟨[r], cats, txns, als⟩ r ++
           " has exceeded the threshold of $" ++ showAmount T ∧
       (findCategory ⟨[r], cats, txns, als⟩ r.categoryId = none →
          resolvedCategoryName ⟨[r], cats, txns, als⟩ r = "this category")) ∧
    thresholdNewAlerts c2Db "u1" "c1" 150 = [c2ScenarioAlert] := by
  constructor
  · intro cats txns als r uid cid A T h1 h2 h3 h4 h5
    subst h1
    have hq : thresholdQueryWhere r.userId cid r = true := by
      simp [thresholdQueryWhere, h2, h3, h4, h5]
    have hcore : ∀ B : Money,
        thresholdNewAlerts ⟨[r], cats, txns, als⟩ r.userId cid B =
          if T ≤ B then [mkThresholdAlert ⟨[r], cats, txns, als⟩ r.userId B r T]
          else [] := by
      intro B
      by_cases hB : T ≤ B
      · simp [thresholdNewAlerts, List.filter_cons, hq, List.filterMap_cons, h5, hB]
      · simp [thresholdNewAlerts, List.filter_cons, hq, List.filterMap_cons, h5, hB]
    refine ⟨?_, ?_, ?_, ?_, rfl, rfl, rfl, ?_⟩
    · intro hTA
      rw [hcore A, if_pos hTA]
    · intro hTA
      rw [hcore A, if_neg hTA]
    · rw [hcore T, if_pos (le_refl T)]
    · rw [hcore (T - 1/100), if_neg]
      intro hc
      linarith
    · intro hnone
      simp [resolvedCategoryName, hnone]
  · decide

/-- C2 witness: the 100-threshold reminder alone fires at an expense of
exactly 150 and stays silent at 99.99. -/
theorem thm_c2_witness :
    thresholdNewAlerts c2SingleDb "u1" "c1" 150 =
      [mkThresholdAlert c2SingleDb "u1" 150 c2R100 100] ∧
    thresholdNewAlerts c2SingleDb "u1" "c1" (100 - 1/100) = [] := by
  have h := thm_c2_threshold_inclusive_boundary.1 [c2Category] [] [] c2R100
    "u1" "c1" 150 100 rfl rfl rfl rfl rfl
  exact ⟨h.1 (by norm_num), h.2.2.2.1⟩

/-- C7: a `THRESHOLD` reminder whose `thresholdAmount` or `categoryId` is
null never passes the store query's `where` clause, so the threshold
evaluation emits no alert for it for any observed transaction data, and the
evaluation completes without error, leaving the store unchanged. -/
theorem thm_c7_null_fields_never_trigger
    (uid cid : String) (A : Money) (r : Reminder)
    (cats : List Category) (txns : List Transaction) (als : List Alert)
    (h : r.thresholdAmount = none ∨ r.categoryId = none) :
    thresholdQueryWhere uid cid r = false ∧
    thresholdNewAlerts ⟨[r], cats, txns, als⟩ uid cid A = [] ∧
    checkThresholdReminders ⟨[r], cats, txns, als⟩ uid cid A = ⟨[r], cats, txns, als⟩ := by
  have hq : thresholdQueryWhere uid cid r = false := by
    cases h with
    | inl h => simp [thresholdQueryWhere, h]
    | inr h =>
      have hbeq : (r.categoryId == some cid) = false := by
        rw [h]
        rfl
      simp [thresholdQueryWhere, hbeq]
  refine ⟨hq, ?_, ?_⟩
  · simp [thresholdNewAlerts, List.filter_cons, hq]
  · simp [checkThresholdReminders, thresholdNewAlerts, List.filter_cons, hq]

/-- C7 witness: the null-threshold reminder produces no alert and leaves
the store untouched at an observed amount of 500. -/
theorem thm_c7_witness :
    thresholdQueryWhere "u1" "util-cat" c7NullReminder = false ∧
    thresholdNewAlerts c7Db "u1" "util-cat" 500 = [] ∧
    checkThresholdReminders c7Db "u1" "util-cat" 500 = c7Db :=
  thm_c7_null_fields_never_trigger "u1" "util-cat" 500 c7NullReminder [] [] []
    (Or.inl rfl)

/-- C8: an incoming `reminderType` of the legacy tag `BUDGET_ALERT` is
rewritten to `THRESHOLD` and accepted without error on both the create and
the update path: the stored reminder's `reminderType` is `THRESHOLD`. -/
theorem thm_c8_budget_alert_maps_to_threshold :
    (∀ (db : Db) (uid : String) (data : CreateReminderDto),
       data.reminderType = some "BUDGET_ALERT" →
       (createReminder db uid data).map (fun x => x.2.reminderType) =
         Except.ok "THRESHOLD") ∧
    (∀ (db : Db) (rid uid : String) (data : UpdateReminderDto) (r : Reminder),
       findReminder db rid uid = some r →
       data.reminderType = some "BUDGET_ALERT" →
       (updateReminder db rid uid data).map (fun x => x.2.reminderType) =
         Except.ok "THRESHOLD") := by
  constructor
  · intro db uid data h
    obtain ⟨t, d, dd, rt, cid, ta, tt, tam⟩ := data
    cases h
    rfl
  · intro db rid uid data r hfind h
    obtain ⟨t, d, dd, co, rt, cid, ta, tt, tam⟩ := data
    cases h
    unfold updateReminder updateReminderTry
    rw [hfind]
    rfl

/-- C8 witness: creating with `BUDGET_ALERT` and updating `rem-1` with
`BUDGET_ALERT` both succeed and store `THRESHOLD`. -/
theorem thm_c8_witness :
    (createReminder c1Db "u1" c8CreateDto).map (fun x => x.2.reminderType) =
      Except.ok "THRESHOLD" ∧
    (updateReminder c1Db "rem-1" "u1" c8UpdateDto).map (fun x => x.2.reminderType) =
      Except.ok "THRESHOLD" :=
  ⟨thm_c8_budget_alert_maps_to_threshold.1 c1Db "u1" c8CreateDto rfl,
   thm_c8_budget_alert_maps_to_threshold.2 c1Db "rem-1" "u1" c8UpdateDto
     payUtilityReminder rfl rfl⟩

/-- C3 counterexample: the claim fails in two ways at concrete inputs.  An
empty-string `reminderType` on create does not fail at all: the falsy-value
default coerces it to `GENERAL` and creation succeeds.  And for `BOGUS`,
the thrown `BadRequestError` never reaches the caller: both create and
update surface `DatabaseError` instead. -/
theorem cex_c3_invalid_type_not_surfaced_as_bad_request :
    (createReminder c1Db "u1" c3EmptyDto).map (fun x => x.2.reminderType) =
      Except.ok "GENERAL" ∧
    createReminder c1Db "u1" c3BogusDto =
      Except.error (ServiceError.database "Failed to create reminder") ∧
    updateReminder c1Db "rem-1" "u1" c3BogusUpd =
      Except.error (ServiceError.database "Failed to update reminder") := by
  exact ⟨rfl, rfl, rfl⟩

/-- C3 (amended): a non-empty `reminderType` outside the accepted set after
legacy mapping makes the service body throw a `BadRequestError` naming the
received value and the three accepted values, but the surrounding catch
replaces what the caller sees with `DatabaseError("Failed to create/update
reminder")`; on create, an empty-string `reminderType` does not fail — it is
coerced to `GENERAL` (the falsy-value default) and creation succeeds. -/
theorem thm_c3_validation_error_replaced_by_database_error :
    (∀ (db : Db) (uid : String) (data : CreateReminderDto) (s : String),
       data.reminderType = some s → s ≠ "" → s ≠ "BUDGET_ALERT" →
       validReminderTypes.contains s = false →
       createReminderTry db uid data = Except.error (ServiceError.badRequest
         ("Invalid reminderType: " ++ s ++
           ". Valid values are: GENERAL, TRANSACTION, THRESHOLD")) ∧
       createReminder db uid data =
         Except.error (ServiceError.database "Failed to create reminder")) ∧
    (∀ (db : Db) (rid uid : String) (data : UpdateReminderDto) (r : Reminder)
       (s : String),
       findReminder db rid uid = some r → data.reminderType = some s →
       s ≠ "BUDGET_ALERT" → validReminderTypes.contains s = false →
       updateReminderTry db rid uid data = Except.error (ServiceError.badRequest
         ("Invalid reminderType: " ++ s ++
           ". Valid values are: GENERAL, TRANSACTION, THRESHOLD")) ∧
       updateReminder db rid uid data =
         Except.error (ServiceError.database "Failed to update reminder")) ∧
    (∀ (db : Db) (uid : String) (data : CreateReminderDto),
       data.reminderType = some "" →
       (createReminder db uid data).map (fun x => x.2.reminderType) =
         Except.ok "GENERAL") := by
  refine ⟨?_, ?_, ?_⟩
  · intro db uid data s hdata hne hnb hcontains
    obtain ⟨t, d, dd, rt, cid, ta, tt, tam⟩ := data
    cases hdata
    have h1 : (s == "") = false := beq_eq_false_iff_ne.mpr hne
    have h2 : (s == "BUDGET_ALERT") = false := beq_eq_false_iff_ne.mpr hnb
    have hmem : s ∉ validReminderTypes := by
      simpa using hcontains
    constructor
    · simp [createReminderTry, h1, h2, hmem]
    · simp [createReminder, createReminderTry, h1, h2, hmem]
  · intro db rid uid data r s hfind hdata hnb hcontains
    obtain ⟨t, d, dd, co, rt, cid, ta, tt, tam⟩ := data
    cases hdata
    have h2 : (s == "BUDGET_ALERT") = false := beq_eq_false_iff_ne.mpr hnb
    have hmem : s ∉ validReminderTypes := by
      simpa using hcontains
    constructor
    · unfold updateReminderTry
      rw [hfind]
      simp [updateReminderTypeField, h2, hmem]
    · unfold updateReminder updateReminderTry
      rw [hfind]
      simp [updateReminderTypeField, h2, hmem]
  · intro db uid data hdata
    obtain ⟨t, d, dd, rt, cid, ta, tt, tam⟩ := data
    cases hdata
    rfl

/-- C3 witness: at `BOGUS` the body throws the naming `BadRequestError`, the
caller receives `DatabaseError` on both paths, and the empty string creates
a `GENERAL` reminder. -/
theorem thm_c3_witness :
    createReminderTry c1Db "u1" c3BogusDto = Except.error (ServiceError.badRequest
      "Invalid reminderType: BOGUS. Valid values are: GENERAL, TRANSACTION, THRESHOLD") ∧
    createReminder c1Db "u1" c3BogusDto =
      Except.error (ServiceError.database "Failed to create reminder") ∧
    updateReminderTry c1Db "rem-1" "u1" c3BogusUpd = Except.error (ServiceError.badRequest
      "Invalid reminderType: BOGUS. Valid values are: GENERAL, TRANSACTION, THRESHOLD") ∧
    updateReminder c1Db "rem-1" "u1" c3BogusUpd =
      Except.error (ServiceError.database "Failed to update reminder") ∧
    (createReminder c1Db "u1" c3EmptyDto).map (fun x => x.2.reminderType) =
      Except.ok "GENERAL" := by
  have h1 := thm_c3_validation_error_replaced_by_database_error.1 c1Db "u1"
    c3BogusDto "BOGUS" rfl (by decide) (by decide) (by decide)
  have h2 := thm_c3_validation_error_replaced_by_database_error.2.1 c1Db
    "rem-1" "u1" c3BogusUpd payUtilityReminder "BOGUS" rfl rfl (by decide) (by decide)
  have h3 := thm_c3_validation_error_replaced_by_database_error.2.2 c1Db "u1"
    c3EmptyDto rfl
  exact ⟨h1.1, h1.2, h2.1, h2.2, h3⟩

/-- C5 counterexample: in a sweep over two due `TRANSACTION` reminders, the
sink failure on the first reminder's alert leaves the second — whose own
alert the sink would accept — without any alert in that sweep, because the
single sweep-level catch aborts the loop; with a healthy sink, both alerts
are written. -/
theorem cex_c5_one_failure_blocks_rest_of_sweep :
    (checkTransactionRemindersWith c5FailSink c5Db c4Now).alerts = [] ∧
    txnDueQueryWhere c4Now c5T2 = true ∧
    mkTransactionAlert c5Db c4Now c5T2 = some c5A2 ∧
    c5FailSink c5A2 = true ∧
    (checkTransactionRemindersWith okSink c5Db c4Now).alerts = [c5A1, c5A2] := by
  decide

/-- C5 (amended): a failure while writing one reminder's alert aborts the
remainder of that sweep: the sweep writes exactly the alerts of the fetched
reminders preceding the failing one (the error is caught at sweep level and
not propagated), and only a sweep with a healthy sink writes one alert per
triggering fetched reminder. -/
theorem thm_c5_failure_aborts_rest_of_sweep :
    (∀ (sink : Alert → Bool) (db : Db) (now : Timestamp)
       (xs ys : List Reminder) (r : Reminder) (a : Alert),
       db.reminders.filter (txnDueQueryWhere now) = xs ++ r :: ys →
       (∀ x ∈ xs, ∀ b, mkTransactionAlert db now x = some b → sink b = true) →
       mkTransactionAlert db now r = some a → sink a = false →
       (checkTransactionRemindersWith sink db now).alerts =
         db.alerts ++ xs.filterMap (mkTransactionAlert db now)) ∧
    (∀ (db : Db) (now : Timestamp),
       (checkTransactionReminders db now).alerts =
         db.alerts ++ (db.reminders.filter (txnDueQueryWhere now)).filterMap
           (mkTransactionAlert db now)) := by
  constructor
  · intro sink db now xs ys r a hfilter hok ha hfail
    unfold checkTransactionRemindersWith
    rw [hfilter, sweepWrites_abort sink (mkTransactionAlert db now) r a ha hfail xs ys hok]
  · intro db now
    unfold checkTransactionReminders checkTransactionRemindersWith
    rw [sweepWrites_okSink]

/-- C5 witness: with the sink that fails on alerts of user `u1`, the two-reminder
sweep writes no alert at all (the failing reminder heads the fetched
list). -/
theorem thm_c5_witness :
    (checkTransactionRemindersWith c5FailSink c5Db c4Now).alerts =
      c5Db.alerts ++ List.filterMap (mkTransactionAlert c5Db c4Now) [] :=
  thm_c5_failure_aborts_rest_of_sweep.1 c5FailSink c5Db c4Now [] [c5T2] c5T1
    c5A1 (by decide)
    (by intro x hx
        exact absurd hx (List.not_mem_nil x))
    (by decide) (by decide)

/-- C6 counterexample: the id-scoped completion operation is
`toggleReminder`, and it is not idempotent: on the active `rem-1`, the first
invocation stores `completed = true`, the second flips it back to
`completed = false` — the claim's "twice leaves completed == true" fails. -/
theorem cex_c6_toggle_twice_not_completed :
    toggleReminder c1Db "rem-1" "u1" = Except.ok (c6Db1, payUtilityCompleted) ∧
    payUtilityCompleted.completed = true ∧
    toggleReminder c6Db1 "rem-1" "u1" = Except.ok (c1Db, payUtilityReminder) ∧
    payUtilityReminder.completed = false := by
  exact ⟨rfl, rfl, rfl, rfl⟩

/-- C6 (amended): `toggleReminder` flips `completed` on each call — two
successive invocations restore the original value, raising no error — while
completion through `updateReminder` with `{ completed: true }` is
idempotent: applied twice, the reminder ends `completed = true` and neither
call errors. -/
theorem thm_c6_toggle_flips_update_completion_idempotent
    (db : Db) (rid uid : String) (r : Reminder)
    (h : findReminder db rid uid = some r) :
    (toggleReminder db rid uid).map (fun x => x.2.completed) =
      Except.ok (!r.completed) ∧
    ((toggleReminder db rid uid).bind (fun x => toggleReminder x.1 rid uid)).map
      (fun x => x.2.completed) = Except.ok r.completed ∧
    (updateReminder db rid uid markCompletedDto).map (fun x => x.2.completed) =
      Except.ok true ∧
    ((updateReminder db rid uid markCompletedDto).bind
      (fun x => updateReminder x.1 rid uid markCompletedDto)).map
      (fun x => x.2.completed) = Except.ok true := by
  obtain ⟨hid, huid⟩ := findReminder_id_eq db rid uid r h
  have htog1 : toggleReminder db rid uid =
      Except.ok (replaceReminder db rid { r with completed := !r.completed },
        { r with completed := !r.completed }) := by
    unfold toggleReminder
    rw [h]
  have hfind1 : findReminder (replaceReminder db rid { r with completed := !r.completed })
      rid uid = some { r with completed := !r.completed } :=
    findReminder_after_replace db rid uid r _ h hid huid
  have htog2 : toggleReminder (replaceReminder db rid { r with completed := !r.completed })
      rid uid = Except.ok
        (replaceReminder (replaceReminder db rid { r with completed := !r.completed })
          rid { r with completed := !(!r.completed) },
         { r with completed := !(!r.completed) }) := by
    unfold toggleReminder
    rw [hfind1]
  have hupd1 : updateReminder db rid uid markCompletedDto =
      Except.ok (replaceReminder db rid (applyReminderUpdate r markCompletedDto none),
        applyReminderUpdate r markCompletedDto none) := by
    unfold updateReminder updateReminderTry
    rw [h]
    rfl
  have hfindu : findReminder (replaceReminder db rid (applyReminderUpdate r markCompletedDto none))
      rid uid = some (applyReminderUpdate r markCompletedDto none) :=
    findReminder_after_replace db rid uid r _ h hid huid
  have hupd2 : updateReminder (replaceReminder db rid (applyReminderUpdate r markCompletedDto none))
      rid uid markCompletedDto = Except.ok
        (replaceReminder (replaceReminder db rid (applyReminderUpdate r markCompletedDto none))
          rid (applyReminderUpdate (applyReminderUpdate r markCompletedDto none) markCompletedDto none),
         applyReminderUpdate (applyReminderUpdate r markCompletedDto none) markCompletedDto none) := by
    unfold updateReminder updateReminderTry
    rw [hfindu]
    rfl
  refine ⟨?_, ?_, ?_, ?_⟩
  · rw [htog1]
    rfl
  · rw [htog1]
    show (toggleReminder (replaceReminder db rid { r with completed := !r.completed }) rid uid).map
      (fun x => x.2.completed) = Except.ok r.completed
    rw [htog2]
    show Except.ok (!(!r.completed)) = Except.ok r.completed
    rw [Bool.not_not]
  · rw [hupd1]
    rfl
  · rw [hupd1]
    show (updateReminder (replaceReminder db rid (applyReminderUpdate r markCompletedDto none))
      rid uid markCompletedDto).map (fun x => x.2.completed) = Except.ok true
    rw [hupd2]
    rfl

/-- C6 witness: on `rem-1`, marking completed through `updateReminder`
twice keeps `completed = true` without error, and two toggles restore
`completed = false`. -/
theorem thm_c6_witness :
    (updateReminder c1Db "rem-1" "u1" markCompletedDto).map
      (fun x => x.2.completed) = Except.ok true ∧
    ((updateReminder c1Db "rem-1" "u1" markCompletedDto).bind
      (fun x => updateReminder x.1 "rem-1" "u1" markCompletedDto)).map
      (fun x => x.2.completed) = Except.ok true ∧
    ((toggleReminder c1Db "rem-1" "u1").bind
      (fun x => toggleReminder x.1 "rem-1" "u1")).map
      (fun x => x.2.completed) = Except.ok false := by
  have h := thm_c6_toggle_flips_update_completion_idempotent c1Db "rem-1" "u1"
    payUtilityReminder rfl
  exact ⟨h.2.2.1, h.2.2.2, h.2.1⟩

/-- C10: a due `TRANSACTION` reminder with null `transactionType` is
labelled `Expense` in its alert message — the label defaults to `Expense`
for every value other than exactly `INCOME` — while a null
`transactionAmount` and an absent category omit their clauses entirely. -/
theorem thm_c10_default_expense_label
    (db : Db) (now : Timestamp) (r : Reminder)
    (hdue : dueOnLoop now r.dueDate = true)
    (htt : r.transactionType = none) (hta : r.transactionAmount = none)
    (hcid : r.categoryId = none) :
    mkTransactionAlert db now r = some
      { userId := r.userId, type := AlertType.INFO,
        message := "Transaction reminder: " ++ r.title ++
          ". Expense transaction is due today." } ∧
    (∀ tt : Option String, tt ≠ some "INCOME" → txnTypeLabel tt = "Expense") ∧
    txnAmountClause none = "" := by
  refine ⟨?_, ?_, rfl⟩
  · unfold mkTransactionAlert
    rw [hdue]
    simp only [if_true, txnTypeLabel, txnAmountClause, txnCategoryClause,
      findCategory, htt, hta, hcid, String.append_assoc]
    rfl
  · intro tt htt'
    have hb : (tt == some "INCOME") = false := beq_eq_false_iff_ne.mpr htt'
    simp [txnTypeLabel, hb]

/-- C10 witness: the null-field `TRANSACTION` reminder due yesterday gets
the `Expense`-labelled bare message. -/
theorem thm_c10_witness :
    mkTransactionAlert c4TxnDb c4Now c10Reminder = some
      { userId := "u1", type := AlertType.INFO,
        message := "Transaction reminder: T0. Expense transaction is due today." } :=
  (thm_c10_default_expense_label c4TxnDb c4Now c10Reminder (by decide)
    rfl rfl rfl).1

/-- C9: the threshold evaluation path never modifies any reminder record
(the completion update is commented out in the source): reminders,
categories and transactions are untouched, the evaluation of the same
amount against the resulting store still produces the same alerts, and a
second qualifying transaction re-triggers, appending the same alerts
again. -/
theorem thm_c9_threshold_evaluation_preserves_reminders
    (db : Db) (userId categoryId : String) (amount : Money) :
    (checkThresholdReminders db userId categoryId amount).reminders = db.reminders ∧
    (checkThresholdReminders db userId categoryId amount).categories = db.categories ∧
    (checkThresholdReminders db userId categoryId amount).transactions = db.transactions ∧
    thresholdNewAlerts (checkThresholdReminders db userId categoryId amount) userId categoryId amount =
      thresholdNewAlerts db userId categoryId amount ∧
    (checkThresholdReminders (checkThresholdReminders db userId categoryId amount) userId categoryId amount).alerts =
      db.alerts ++ thresholdNewAlerts db userId categoryId amount ++
        thresholdNewAlerts db userId categoryId amount := by
  exact ⟨rfl, rfl, rfl, rfl, rfl⟩

end Agribook
